import Mathlib

/-!
Verification of the codematic backend submission pipeline
(`src/codematic/executor.py`) against its natural-language specification.

The executable parts of `Executor.build_and_run_submission` and
`ExecutorEndpoint.post` are shallowly embedded below.  External effects
(the docker engine, the filesystem, the socket channel) are modelled by
explicit state components and failure-injection flags; every definition
carries a comment pointing at the source lines it embeds.
-/

namespace Codematic

/-- `Executor.SUPPORTED_LANGS` (executor.py line 23). -/
def SUPPORTED_LANGS : List String := ["c++17"]

/-- `Executor.TEST_CASE_TIME_LIMIT` (line 25): seconds allowed per test case. -/
def TEST_CASE_TIME_LIMIT : Nat := 5

/-- `Executor.CONTAINER_MEMORY_LIMIT` (line 27): container memory limit in MB. -/
def CONTAINER_MEMORY_LIMIT : Nat := 50

/-- `Executor.CONTAINER_CPU_LIMIT` (line 29): the float `0.05`, i.e. 5 percent
of one CPU, modelled as the rational 5/100. -/
def CONTAINER_CPU_LIMIT : Rat := 5 / 100

/-- `Executor.CONTAINERS_PER_SUBMISSION` (line 31). -/
def CONTAINERS_PER_SUBMISSION : Nat := 3

/-- Socket status message type `BUILDING_DOCKER_IMAGE` (line 34). -/
def BUILDING_DOCKER_IMAGE : Nat := 0
/-- Socket status message type `DOCKER_IMAGE_BUILT` (line 35). -/
def DOCKER_IMAGE_BUILT : Nat := 1
/-- Socket status message type `STARTING_DOCKER_CONTAINER` (line 36). -/
def STARTING_DOCKER_CONTAINER : Nat := 2
/-- Socket status message type `DOCKER_CONTAINER_STARTED` (line 37). -/
def DOCKER_CONTAINER_STARTED : Nat := 3
/-- Socket status message type `RUNNING_TEST_CASE` (line 38). -/
def RUNNING_TEST_CASE : Nat := 4
/-- Socket status message type `FINISHED_TEST_CASE` (line 39). -/
def FINISHED_TEST_CASE : Nat := 5
/-- Socket status message type `CLEANING_UP` (line 40). -/
def CLEANING_UP : Nat := 6
/-- Socket status message type `FINISHED` (line 41). -/
def FINISHED : Nat := 7
/-- Socket status message type `DOCKER_IMAGE_FAILED` (line 42). -/
def DOCKER_IMAGE_FAILED : Nat := 8

/-- Test case status `TEST_CASE_PASSED` (line 45). -/
def TEST_CASE_PASSED : Nat := 0
/-- Test case status `TEST_CASE_FAILED` (line 46). -/
def TEST_CASE_FAILED : Nat := 1
/-- Test case status `TEST_CASE_TIMED_OUT` (line 47). -/
def TEST_CASE_TIMED_OUT : Nat := 2

/-- Verdict computation for one test case, embedding executor.py lines
187-192: a timed-out run is classified `TEST_CASE_TIMED_OUT`; otherwise the
captured container output is compared to the expected output by exact string
equality (`container_output != expected_output`), a mismatch giving
`TEST_CASE_FAILED` and equality giving `TEST_CASE_PASSED`. -/
def verdict (timedOut : Bool) (containerOutput expectedOutput : String) : Nat :=
  if timedOut then TEST_CASE_TIMED_OUT
  else if containerOutput ≠ expectedOutput then TEST_CASE_FAILED
  else TEST_CASE_PASSED

/-- One test case execution is modelled by an `Option String`: `some out`
when the exec thread finished within the 5-second `thread.join` window
(delivering the decoded container output, lines 164-167), `none` when the
thread was still alive when the join timed out (line 182). -/
def timedOutOf (execOutcome : Option String) : Bool :=
  execOutcome.isNone

/-- The value read from `actual_outputs[idx]` at line 186: the slot is
initialized to the empty string (line 169, `[''] * len(test_case_outputs)`)
and written only when the exec thread completes, so a slot whose thread has
not completed still holds `""`. -/
def capturedOutput (execOutcome : Option String) : String :=
  execOutcome.getD ""

/-- Status of one test case as computed by the loop body (lines 180-192),
given the exec outcome of that test case. -/
def statusOf (execOutcome : Option String) (expectedOutput : String) : Nat :=
  verdict (timedOutOf execOutcome) (capturedOutput execOutcome) expectedOutput

/-- Payload carried in the `data` field of a status event: the code puts an
empty object, or `testCase`, or `testCase` plus `status` (lines 173, 195). -/
structure EventData where
  testCase : Option Nat := none
  status : Option Nat := none
deriving Repr, DecidableEq

/-- One `socketio.emit('status', ...)` payload: every emit in
`build_and_run_submission` passes `type` and `message`; all but the one at
line 141 also pass a `data` object, so `data` is modelled as optional. -/
structure Event where
  type : Nat
  message : String
  data : Option EventData
deriving Repr, DecidableEq

/-- The emit at line 108. -/
def evBuilding : Event :=
  { type := BUILDING_DOCKER_IMAGE, message := "Building Docker image", data := some {} }

/-- The emit at line 141: note that, unlike every other emit in the pipeline,
this payload has no `data` key; its message is the accumulated build
diagnostic text `err_msg`. -/
def evImageFailed (errMsg : String) : Event :=
  { type := DOCKER_IMAGE_FAILED, message := errMsg, data := none }

/-- The emit at line 146. -/
def evImageBuilt : Event :=
  { type := DOCKER_IMAGE_BUILT, message := "Docker image built successfully", data := some {} }

/-- The emit at line 149. -/
def evStarting : Event :=
  { type := STARTING_DOCKER_CONTAINER, message := "Starting Docker container", data := some {} }

/-- The emit at line 162. -/
def evStarted : Event :=
  { type := DOCKER_CONTAINER_STARTED, message := "Docker container started", data := some {} }

/-- The emit at line 173, before test case `idx` runs. -/
def evRunningTest (idx : Nat) : Event :=
  { type := RUNNING_TEST_CASE, message := "Running test case " ++ toString idx,
    data := some { testCase := some idx } }

/-- The emit at line 195, after test case `idx` finishes: the message says
"passed" only for `TEST_CASE_PASSED` (line 194), and `data` carries the test
case index and its status. -/
def evFinishedTest (idx : Nat) (status : Nat) : Event :=
  { type := FINISHED_TEST_CASE,
    message := "Test case " ++ toString idx ++
      (if status = TEST_CASE_PASSED then " passed" else " failed"),
    data := some { testCase := some idx, status := some status } }

/-- The emit at line 198. -/
def evCleaning : Event :=
  { type := CLEANING_UP, message := "Cleaning up", data := some {} }

/-- The emit at line 204. -/
def evFinished : Event :=
  { type := FINISHED, message := "Finished", data := some {} }

/-- Events produced by the test-case loop (lines 171-195) starting at index
`idx`: for each expected output, one `RUNNING_TEST_CASE` event then one
`FINISHED_TEST_CASE` event, with the status computed by `statusOf` from that
test case exec outcome.  The loop iterates over `test_case_outputs` and
never breaks, whatever the statuses are. -/
def testLoopEvents (exec : Nat → Option String) : Nat → List String → List Event
  | _, [] => []
  | idx, out :: rest =>
    evRunningTest idx :: evFinishedTest idx (statusOf (exec idx) out) ::
      testLoopEvents exec (idx + 1) rest

/-- Errors that can abort the pipeline, mirroring the exceptions raised in
`build_and_run_submission`: an OS error from `os.makedirs`/file writes, a
`docker.errors.APIError` from the engine, and the `docker.errors.ImageNotFound`
raised at line 143 when the built image cannot be retrieved (the code path the
spec names `BuildFailed`). -/
inductive PipeErr
  | osError
  | apiError
  | imageNotFound
deriving Repr, DecidableEq

/-- Resource / variable state of one pipeline run.  `workspaceExists`,
`imageExists` and `containerRunning` track the external resources (the build
directory, the tagged docker image, the running container);
`imageDefined` and `containerDefined` track whether the local Python variables
`docker_image` and `container` were ever assigned, because the cleanup blocks
at lines 207-212 and 217-222 reference them and a reference to an unassigned
variable raises `NameError`; `containerEverStarted` records whether
`docker_client.containers.run` was ever reached. -/
structure PipeState where
  workspaceExists : Bool
  imageExists : Bool
  imageDefined : Bool
  containerRunning : Bool
  containerDefined : Bool
  containerEverStarted : Bool
deriving Repr, DecidableEq

/-- The state before line 79: nothing created yet. -/
def initialState : PipeState :=
  { workspaceExists := false, imageExists := false, imageDefined := false,
    containerRunning := false, containerDefined := false, containerEverStarted := false }

/-- `shutil.rmtree(build_dir, ignore_errors=...)` as used at lines 208 and
218: removing an existing tree succeeds; on a missing path plain `rmtree`
raises an OS error, but with `ignore_errors=True` (the flag the code always
passes) every failure is ignored, so the call never raises and the path does
not exist afterwards. -/
def rmtree (ignoreErrors : Bool) (pathExists : Bool) : Except PipeErr Bool :=
  if pathExists then Except.ok false
  else if ignoreErrors then Except.ok false
  else Except.error PipeErr.osError

/-- `container.kill()` as invoked at lines 200, 209 and 219, against the
docker engine it is a call into: killing a running container succeeds (and,
because the container was started with `remove=True`, the container is gone
afterwards); killing a container that is not running or no longer exists makes
the engine raise (HTTP 409 / 404, surfaced as a docker APIError).  The
argument is whether the container is currently running, the `ok` value is the
running state afterwards. -/
def containerKill (running : Bool) : Except PipeErr Bool :=
  if running then Except.ok false else Except.error PipeErr.apiError

/-- `docker_client.images.remove(docker_image.id, force=True)` as invoked at
lines 201, 210 and 220: removing an existing image succeeds; removing an image
the engine no longer has raises `docker.errors.ImageNotFound` even with
`force=True`.  The argument is whether the image exists, the `ok` value is
the existence state afterwards. -/
def imagesRemoveForce (imageExists : Bool) : Except PipeErr Bool :=
  if imageExists then Except.ok false else Except.error PipeErr.imageNotFound

/-- One cleanup attempt, embedding the identical blocks at lines 207-212 and
217-222.  The three statements run in order inside a single `try` whose bare
`except: pass` swallows any error, so the first statement that raises aborts
the statements after it without propagating anything:
`shutil.rmtree(build_dir, ignore_errors=True)` never raises and removes the
workspace; `container.kill()` raises unless the `container` variable is
assigned and the container is running; `images.remove` then raises unless
`docker_image` is assigned and the image still exists. -/
def cleanup (s : PipeState) : PipeState :=
  let s1 : PipeState := { s with workspaceExists := false }
  if s1.containerDefined && s1.containerRunning then
    let s2 : PipeState := { s1 with containerRunning := false }
    if s2.imageDefined && s2.imageExists then { s2 with imageExists := false } else s2
  else s1

/-- Failure-injection configuration for one run: each flag makes the
corresponding external call succeed or raise, and `errMsg` is the diagnostic
text accumulated from the docker build stream (lines 117-129).
`execOutcomes i` is the exec outcome of test case `i` (see `timedOutOf`).
`kill200Ok` / `remove201Ok` inject engine faults into the two unguarded
success-path calls at lines 200-201. -/
structure RunConfig where
  makedirsOk : Bool
  writesOk : Bool
  buildApiOk : Bool
  errMsg : String
  imageProduced : Bool
  containerStartOk : Bool
  kill200Ok : Bool
  remove201Ok : Bool
  execOutcomes : Nat → Option String

/-- Result of running the `try` block, or of the whole function: the resource
state, the ordered list of emitted status events, and the pending error if the
block raised. -/
structure RunOutcome where
  state : PipeState
  events : List Event
  err : Option PipeErr
deriving Repr

/-- The `try` block of `build_and_run_submission` (lines 77-204), with the
statements that touch the outside world interpreted through `RunConfig`:
`os.makedirs` (line 79) and the file writes (lines 82-106) either succeed or
raise an OS error; the docker build (lines 116-133) either streams to
completion or raises an APIError; `images.get` (lines 137-143) succeeds only
if the build actually produced the tagged image, otherwise the code emits the
`DOCKER_IMAGE_FAILED` event carrying `err_msg` and re-raises `ImageNotFound`;
`containers.run` (lines 150-157) either starts the container or raises; the
test-case loop (lines 171-195) runs every test case; then `container.kill()`
(line 200) and `images.remove` (line 201) run unguarded before the final
`FINISHED` emit (line 204). -/
def tryBlock (cfg : RunConfig) (outs : List String) : RunOutcome :=
  if !cfg.makedirsOk then
    { state := initialState, events := [], err := some PipeErr.osError }
  else
    let s1 : PipeState := { initialState with workspaceExists := true }
    if !cfg.writesOk then
      { state := s1, events := [], err := some PipeErr.osError }
    else if !cfg.buildApiOk then
      { state := s1, events := [evBuilding], err := some PipeErr.apiError }
    else if !cfg.imageProduced then
      { state := s1, events := [evBuilding, evImageFailed cfg.errMsg],
        err := some PipeErr.imageNotFound }
    else
      let s2 : PipeState := { s1 with imageExists := true, imageDefined := true }
      if !cfg.containerStartOk then
        { state := s2, events := [evBuilding, evImageBuilt, evStarting],
          err := some PipeErr.apiError }
      else
        let s3 : PipeState :=
          { s2 with containerRunning := true, containerDefined := true,
                    containerEverStarted := true }
        let evs : List Event :=
          [evBuilding, evImageBuilt, evStarting, evStarted]
            ++ testLoopEvents cfg.execOutcomes 0 outs ++ [evCleaning]
        if !cfg.kill200Ok then
          { state := s3, events := evs, err := some PipeErr.apiError }
        else
          let s4 : PipeState := { s3 with containerRunning := false }
          if !cfg.remove201Ok then
            { state := s4, events := evs, err := some PipeErr.apiError }
          else
            { state := { s4 with imageExists := false },
              events := evs ++ [evFinished], err := none }

/-- The whole of `build_and_run_submission` (lines 49-222): run the `try`
block; if it raised, the `except` block (lines 206-215) performs one guarded
cleanup attempt and re-raises the original error, after which the `finally`
block (lines 216-222) performs the same guarded cleanup once more; if the
`try` block completed, only the `finally` cleanup runs. -/
def build_and_run_submission (cfg : RunConfig) (outs : List String) : RunOutcome :=
  let t := tryBlock cfg outs
  match t.err with
  | none => { state := cleanup t.state, events := t.events, err := none }
  | some e => { state := cleanup (cleanup t.state), events := t.events, err := some e }

/-- A configuration in which every external call succeeds. -/
def okCfg (errMsg : String) (exec : Nat → Option String) : RunConfig :=
  { makedirsOk := true, writesOk := true, buildApiOk := true, errMsg := errMsg,
    imageProduced := true, containerStartOk := true, kill200Ok := true,
    remove201Ok := true, execOutcomes := exec }

/-- A configuration in which the source fails to compile: the docker build
stream completes (no engine APIError) but no tagged image is produced, so
`images.get` raises `ImageNotFound` at line 143. -/
def compileFailCfg (errMsg : String) : RunConfig :=
  { okCfg errMsg (fun _ => none) with imageProduced := false }

/-- A configuration in which everything succeeds up to line 200, the kill at
line 200 succeeds, and the `images.remove` at line 201 raises a transient
engine APIError. -/
def removeFailCfg : RunConfig :=
  { okCfg "" (fun _ => none) with remove201Ok := false }

/-- The keyword arguments passed to `docker_client.containers.run`.  The
fields mirror the docker SDK options the call site can set; the CPU-limiting
options of the SDK (`nano_cpus`, `cpu_period`/`cpu_quota`, `cpu_shares`) are
collapsed into one optional `cpuLimit` field. -/
structure ContainerRunOptions where
  remove : Bool
  tty : Bool
  stdin_open : Bool
  name : String
  detach : Bool
  mem_limit : Option String
  cpuLimit : Option Rat
deriving Repr, DecidableEq

/-- The options the pipeline actually passes at lines 150-157 for the
submission with unique id `uniqueId`: `remove=True`, `tty=True`,
`stdin_open=True`, `name=f(codematic-)(unique_id)`, `detach=True`,
`mem_limit=f(CONTAINER_MEMORY_LIMIT)(M)`.  No CPU-limiting keyword is passed
anywhere in the call, so `cpuLimit` is `none`. -/
def containerRunOptions (uniqueId : String) : ContainerRunOptions :=
  { remove := true, tty := true, stdin_open := true,
    name := "codematic-" ++ uniqueId, detach := true,
    mem_limit := some (toString CONTAINER_MEMORY_LIMIT ++ "M"),
    cpuLimit := none }

/-- The per-character test performed at line 270:
`re.match('[a-zA-Z0.9\x5c.]', c)`.  The regex is a character class containing
the ranges `a-z` and `A-Z` and the literal characters `0`, `.`, `9` and `.`
(inside a class the dot is literal, and `0.9` lists the three characters `0`,
`.`, `9` rather than the range `0-9`), so exactly the lowercase letters, the
uppercase letters, the digits `0` and `9`, and the period match. -/
def filenameCharOk (c : Char) : Bool :=
  ('a' ≤ c && c ≤ 'z') || ('A' ≤ c && c ≤ 'Z') || c == '0' || c == '9' || c == '.'

/-- A filename the loop at lines 268-271 rejects: one containing some
character that fails `filenameCharOk`. -/
def badFilename (fn : String) : Bool :=
  fn.toList.any (fun c => !filenameCharOk c)

/-- Modelled from the spec, for comparison with `filenameCharOk`: the section
6 precondition says every filename matches an alphanumeric-plus-period
charset, i.e. each character is an ASCII letter, a digit, or a period. -/
def specFilenameCharAllowed (c : Char) : Bool :=
  c.isAlpha || c.isDigit || c == '.'

/-- The JSON body of a POST to `/executor/run` as `ExecutorEndpoint.post`
reads it: the four keys the handler looks up (lines 236-248), each absent or
present, plus `language` and `entryPoint` fields a client might send, which
the handler never reads (modelled so that independence from them can be
stated). -/
structure RequestBody where
  sourceCodes : Option (List String)
  sourceCodeFilenames : Option (List String)
  testCaseInputs : Option (List String)
  testCaseOutputs : Option (List String)
  language : Option String
  entryPoint : Option String
deriving Repr, DecidableEq

/-- The argument tuple the endpoint passes to
`executor.build_and_run_submission` at lines 278-279. -/
structure Invocation where
  sourceCodes : List String
  sourceCodeFilenames : List String
  testCaseInputs : List String
  testCaseOutputs : List String
  lang : String
  entryPoint : String
deriving Repr, DecidableEq

/-- The request-validation part of `ExecutorEndpoint.post` (lines 234-279),
up to and including the construction of the pipeline call: presence checks for
the four keys (lines 236-243), the two length checks (lines 255-258), the
`unicode_escape` decoding of source codes and test case texts (lines 260-265,
modelled by the abstract `unescape` function since it is a Python library
transformation; filenames are not unescaped), the filename charset loop
(lines 267-271, returning the message for the first offending filename), and
finally the call with the literal arguments `temp_dir, (c++17), (main)`
(line 279).  An `Except.error` is a rejected request: the pipeline is never
invoked. -/
def post (unescape : String → String) (r : RequestBody) : Except String Invocation :=
  match r.sourceCodes with
  | none => Except.error "No source codes provided."
  | some sourceCodes =>
  match r.sourceCodeFilenames with
  | none => Except.error "No source code filenames provided."
  | some sourceCodeFilenames =>
  match r.testCaseInputs with
  | none => Except.error "No test case inputs provided."
  | some testCaseInputs =>
  match r.testCaseOutputs with
  | none => Except.error "No test case outputs provided."
  | some testCaseOutputs =>
  if sourceCodes.length ≠ sourceCodeFilenames.length then
    Except.error "Number of source codes differs from number of source code filenames"
  else if testCaseInputs.length ≠ testCaseOutputs.length then
    Except.error "Number of test case inputs differs from number of test case outputs"
  else
    match sourceCodeFilenames.find? badFilename with
    | some fn => Except.error ("Invalid filename: " ++ fn)
    | none =>
      Except.ok
        { sourceCodes := sourceCodes.map unescape,
          sourceCodeFilenames := sourceCodeFilenames,
          testCaseInputs := testCaseInputs.map unescape,
          testCaseOutputs := testCaseOutputs.map unescape,
          lang := "c++17", entryPoint := "main" }

/-- The phases of the section 3 pipeline state machine, following the words
of the spec. -/
inductive SpecPhase
  | initializing
  | writingWorkspace
  | buildingImage
  | imageBuilt
  | imageBuildFailed
  | startingContainer
  | containerRunningPhase
  | runningTestCase (i : Nat)
  | testCaseFinished (i : Nat)
  | cleaningUp
  | finishedPhase
  | failedPhase
deriving Repr, DecidableEq

/-- Modelled from the spec: the sequence of phase transitions of the section
3 state machine along the success path of a run with `n` test cases, one
entry per transition (each entry is the phase entered).  Starting from
`Initializing`, the machine visits WritingWorkspace, BuildingImage,
ImageBuilt, StartingContainer, ContainerRunning, then RunningTestCase(i) and
TestCaseFinished(i) for each i, then CleaningUp and Finished. -/
def specSuccessTransitions (n : Nat) : List SpecPhase :=
  [SpecPhase.writingWorkspace, SpecPhase.buildingImage, SpecPhase.imageBuilt,
   SpecPhase.startingContainer, SpecPhase.containerRunningPhase]
    ++ (List.range n).flatMap
        (fun i => [SpecPhase.runningTestCase i, SpecPhase.testCaseFinished i])
    ++ [SpecPhase.cleaningUp, SpecPhase.finishedPhase]

/-- The state after a fully successful run: the workspace was removed, the
image was removed, the container was killed; the Python variables remain
assigned and the container was started at some point. -/
def finalOkState : PipeState :=
  { workspaceExists := false, imageExists := false, imageDefined := true,
    containerRunning := false, containerDefined := true, containerEverStarted := true }

/-- The events of a fully successful run, in emission order. -/
def okEvents (exec : Nat → Option String) (outs : List String) : List Event :=
  [evBuilding, evImageBuilt, evStarting, evStarted]
    ++ testLoopEvents exec 0 outs ++ [evCleaning, evFinished]

lemma cleanup_workspaceExists (s : PipeState) : (cleanup s).workspaceExists = false := by
  unfold cleanup
  dsimp only
  split
  · split <;> rfl
  · rfl

lemma cleanup_of_not_running (s : PipeState) (h : s.containerRunning = false) :
    cleanup s = { s with workspaceExists := false } := by
  unfold cleanup
  simp [h]

lemma cleanup_idem (s : PipeState) : cleanup (cleanup s) = cleanup s := by
  rcases s with ⟨ws, img, imgD, run, cD, ev⟩
  cases run <;> cases cD <;> cases imgD <;> cases img <;> simp [cleanup]

lemma testLoopEvents_map_type (exec : Nat → Option String) :
    ∀ (outs : List String) (i : Nat),
      (testLoopEvents exec i outs).map Event.type =
        outs.flatMap (fun _ => [RUNNING_TEST_CASE, FINISHED_TEST_CASE])
  | [], _ => rfl
  | out :: rest, i => by
    simp [testLoopEvents, evRunningTest, evFinishedTest,
      testLoopEvents_map_type exec rest (i + 1)]

lemma testLoopEvents_data_isSome (exec : Nat → Option String) :
    ∀ (outs : List String) (i : Nat) (ev : Event),
      ev ∈ testLoopEvents exec i outs → ev.data.isSome = true
  | [], _, _, h => by simp [testLoopEvents] at h
  | out :: rest, i, ev, h => by
    simp only [testLoopEvents, List.mem_cons] at h
    rcases h with h | h | h
    · subst h; rfl
    · subst h; rfl
    · exact testLoopEvents_data_isSome exec rest (i + 1) ev h

lemma testLoopEvents_filter_finished (exec : Nat → Option String) :
    ∀ (outs : List String) (i : Nat),
      (testLoopEvents exec i outs).filter (fun ev => ev.type == FINISHED_TEST_CASE) =
        (List.enumFrom i outs).map (fun p => evFinishedTest p.1 (statusOf (exec p.1) p.2))
  | [], _ => rfl
  | out :: rest, i => by
    have h1 : ((evRunningTest i).type == FINISHED_TEST_CASE) = false := rfl
    have h2 : ((evFinishedTest i (statusOf (exec i) out)).type == FINISHED_TEST_CASE) = true := rfl
    simp only [testLoopEvents, List.filter_cons, h1, h2, if_true, if_false,
      Bool.false_eq_true, List.enumFrom, List.map_cons]
    rw [testLoopEvents_filter_finished exec rest (i + 1)]

lemma testLoopEvents_filter_running (exec : Nat → Option String) :
    ∀ (outs : List String) (i : Nat),
      (testLoopEvents exec i outs).filter (fun ev => ev.type == RUNNING_TEST_CASE) =
        (List.enumFrom i outs).map (fun p => evRunningTest p.1)
  | [], _ => rfl
  | out :: rest, i => by
    have h1 : ((evRunningTest i).type == RUNNING_TEST_CASE) = true := rfl
    have h2 : ((evFinishedTest i (statusOf (exec i) out)).type == RUNNING_TEST_CASE) = false := rfl
    simp only [testLoopEvents, List.filter_cons, h1, h2, if_true, if_false,
      Bool.false_eq_true, List.enumFrom, List.map_cons]
    rw [testLoopEvents_filter_running exec rest (i + 1)]

lemma run_okCfg (msg : String) (exec : Nat → Option String) (outs : List String) :
    build_and_run_submission (okCfg msg exec) outs =
      { state := finalOkState, events := okEvents exec outs, err := none } := by
  simp [build_and_run_submission, tryBlock, okCfg, cleanup, okEvents, finalOkState,
    initialState]

lemma run_ok (cfg : RunConfig) (outs : List String)
    (h : (build_and_run_submission cfg outs).err = none) :
    build_and_run_submission cfg outs =
      { state := finalOkState, events := okEvents cfg.execOutcomes outs, err := none } := by
  rcases cfg with ⟨m, w, b, msg, ip, cs, k, r, ex⟩
  cases m <;> cases w <;> cases b <;> cases ip <;> cases cs <;> cases k <;> cases r <;>
    simp_all [build_and_run_submission, tryBlock, cleanup, okEvents, finalOkState,
      initialState]

lemma okEvents_filter_finished (exec : Nat → Option String) (outs : List String) :
    (okEvents exec outs).filter (fun ev => ev.type == FINISHED_TEST_CASE) =
      outs.enum.map (fun p => evFinishedTest p.1 (statusOf (exec p.1) p.2)) := by
  have h := testLoopEvents_filter_finished exec outs 0
  have hpre : (([evBuilding, evImageBuilt, evStarting, evStarted] : List Event).filter
      (fun ev => ev.type == FINISHED_TEST_CASE)) = [] := rfl
  have hsuf : (([evCleaning, evFinished] : List Event).filter
      (fun ev => ev.type == FINISHED_TEST_CASE)) = [] := rfl
  simp only [okEvents, List.filter_append, hpre, hsuf, List.nil_append, List.append_nil, h]
  rfl

lemma okEvents_filter_running (exec : Nat → Option String) (outs : List String) :
    (okEvents exec outs).filter (fun ev => ev.type == RUNNING_TEST_CASE) =
      outs.enum.map (fun p => evRunningTest p.1) := by
  have h := testLoopEvents_filter_running exec outs 0
  have hpre : (([evBuilding, evImageBuilt, evStarting, evStarted] : List Event).filter
      (fun ev => ev.type == RUNNING_TEST_CASE)) = [] := rfl
  have hsuf : (([evCleaning, evFinished] : List Event).filter
      (fun ev => ev.type == RUNNING_TEST_CASE)) = [] := rfl
  simp only [okEvents, List.filter_append, hpre, hsuf, List.nil_append, List.append_nil, h]
  rfl

lemma okEvents_data_isSome (exec : Nat → Option String) (outs : List String) :
    ∀ ev ∈ okEvents exec outs, ev.data.isSome = true := by
  intro ev hmem
  simp only [okEvents, List.mem_append, List.mem_cons, List.not_mem_nil, or_false] at hmem
  rcases hmem with ((h | h | h | h) | h) | (h | h)
  · subst h; rfl
  · subst h; rfl
  · subst h; rfl
  · subst h; rfl
  · exact testLoopEvents_data_isSome exec outs 0 ev h
  · subst h; rfl
  · subst h; rfl

/-- C1: for every test case the verdict is deterministic: `TEST_CASE_TIMED_OUT`
takes precedence over the output comparison; otherwise the status is
`TEST_CASE_PASSED` iff the captured actual output is exactly string-equal to
the expected output (no trimming or normalization), and any mismatch yields
`TEST_CASE_FAILED`. -/
theorem claim_C1_verdict_deterministic (timedOut : Bool) (actual expected : String) :
    (verdict timedOut actual expected = TEST_CASE_TIMED_OUT ↔ timedOut = true) ∧
    (verdict timedOut actual expected = TEST_CASE_PASSED ↔
      (timedOut = false ∧ actual = expected)) ∧
    (verdict timedOut actual expected = TEST_CASE_FAILED ↔
      (timedOut = false ∧ actual ≠ expected)) := by
  cases timedOut <;> by_cases h : actual = expected <;>
    simp_all [verdict, TEST_CASE_TIMED_OUT, TEST_CASE_PASSED, TEST_CASE_FAILED]

/-- C9: a test case whose exec thread has not completed when the wall-clock
timeout elapses is reported with `timedOut = true`, its recorded actual output
is the empty string (the untouched initial slot value), and its status is
`TEST_CASE_TIMED_OUT`. -/
theorem claim_C9_timeout_empty_output (expected : String) :
    timedOutOf none = true ∧ capturedOutput none = "" ∧
    statusOf none expected = TEST_CASE_TIMED_OUT :=
  ⟨rfl, rfl, rfl⟩

/-- C3: for every pipeline run, whatever combination of stages fails, the
workspace directory does not exist once the run returns or raises, the
teardown never changes which error (if any) propagates, and
`rmtree` with `ignore_errors=True` is tolerant of a missing path and never
raises. -/
theorem claim_C3_workspace_removed :
    (∀ (cfg : RunConfig) (outs : List String),
      (build_and_run_submission cfg outs).state.workspaceExists = false ∧
      (build_and_run_submission cfg outs).err = (tryBlock cfg outs).err) ∧
    (∀ pathExists : Bool, rmtree true pathExists = Except.ok false) := by
  constructor
  · intro cfg outs
    cases h : (tryBlock cfg outs).err <;>
      simp [build_and_run_submission, h, cleanup_workspaceExists]
  · intro pathExists
    cases pathExists <;> rfl

/-- C6 counterexample: the claim says `stop(instance)` and
`removeImage(imageHandle)` are safe to invoke twice consecutively without
error.  On the code, `stop` is `container.kill()` and `removeImage` is
`docker_client.images.remove(..., force=True)`; invoking either twice in a row
makes the second call raise, because the docker engine errors on a container
that is no longer running and on an image it no longer has. -/
theorem claim_C6_counterexample :
    (containerKill true).bind containerKill = Except.error PipeErr.apiError ∧
    (imagesRemoveForce true).bind imagesRemoveForce =
      Except.error PipeErr.imageNotFound :=
  ⟨rfl, rfl⟩

/-- C6 amended: the raw stop and remove operations are not idempotent, but
the pipeline double-invokes them safely: the guarded cleanup block is total
and idempotent (running it twice equals running it once, and it propagates no
error), and a fully successful run — which kills the container and removes the
image at lines 200-201 and then runs the guarded cleanup again in `finally` —
completes with no error and with no leftover container, image or workspace. -/
theorem claim_C6_cleanup_idempotent :
    (∀ s : PipeState, cleanup (cleanup s) = cleanup s) ∧
    (∀ (msg : String) (exec : Nat → Option String) (outs : List String),
      (build_and_run_submission (okCfg msg exec) outs).err = none ∧
      (build_and_run_submission (okCfg msg exec) outs).state.containerRunning = false ∧
      (build_and_run_submission (okCfg msg exec) outs).state.imageExists = false ∧
      (build_and_run_submission (okCfg msg exec) outs).state.workspaceExists = false) := by
  refine ⟨cleanup_idem, ?_⟩
  intro msg exec outs
  rw [run_okCfg]
  exact ⟨rfl, rfl, rfl, rfl⟩

/-- C2 counterexample: the claim says the three cleanup steps are each
independently guarded, so that one failing cleanup step does not prevent the
others.  In the code all three statements share one `try ... except: pass`:
in a run where everything succeeds until the unguarded
`docker_client.images.remove` at line 201 raises a transient engine error,
the cleanup attempts that follow first call `container.kill()` on the
already-killed container, which raises and aborts the rest of the block —
so the built image is never removed and leaks, prevented exactly by the
failing stop step. -/
theorem claim_C2_counterexample :
    (build_and_run_submission removeFailCfg []).err = some PipeErr.apiError ∧
    (build_and_run_submission removeFailCfg []).state.imageExists = true ∧
    (build_and_run_submission removeFailCfg []).state.imageDefined = true ∧
    (build_and_run_submission removeFailCfg []).state.workspaceExists = false :=
  ⟨rfl, rfl, rfl, rfl⟩

/-- C2 amended: when any stage raises, the guarded cleanup block runs (twice:
once in `except`, once in `finally`) before the original error is re-raised
unchanged; the three cleanup statements share a single guard, in the order
workspace removal, container kill, image removal, so a failing kill skips the
image removal (it does not prevent the workspace removal, which comes first
and never fails); and when the source fails to compile the pipeline raises
the engine ImageNotFound error (the path the spec calls `BuildFailed`), the
diagnostic text is published as the message of the `DOCKER_IMAGE_FAILED`
event rather than attached to the exception, no container is ever started,
and neither the workspace nor any tagged image remains. -/
theorem claim_C2_cleanup_guarded (cfg : RunConfig) (outs : List String) :
    (∀ e : PipeErr, (tryBlock cfg outs).err = some e →
      build_and_run_submission cfg outs =
        { state := cleanup (cleanup (tryBlock cfg outs).state),
          events := (tryBlock cfg outs).events, err := some e }) ∧
    (cfg.makedirsOk = true → cfg.writesOk = true → cfg.buildApiOk = true →
      cfg.imageProduced = false →
        (build_and_run_submission cfg outs).err = some PipeErr.imageNotFound ∧
        (build_and_run_submission cfg outs).state.containerEverStarted = false ∧
        (build_and_run_submission cfg outs).state.workspaceExists = false ∧
        (build_and_run_submission cfg outs).state.imageExists = false ∧
        (build_and_run_submission cfg outs).events =
          [evBuilding, evImageFailed cfg.errMsg]) ∧
    (∀ s : PipeState, s.containerRunning = false →
      cleanup s = { s with workspaceExists := false }) := by
  refine ⟨?_, ?_, cleanup_of_not_running⟩
  · intro e h
    simp [build_and_run_submission, h]
  · intro h1 h2 h3 h4
    rcases cfg with ⟨m, w, b, msg, ip, cs, k, r, ex⟩
    simp only at h1 h2 h3 h4
    subst h1 h2 h3 h4
    simp [build_and_run_submission, tryBlock, cleanup, initialState]

/-- C2 witness: the amended theorem applied to a concrete compile-failure
run. -/
theorem claim_C2_witness :
    (build_and_run_submission (compileFailCfg "undefined reference to main") []).err =
        some PipeErr.imageNotFound ∧
    (build_and_run_submission (compileFailCfg "undefined reference to main") []).state.containerEverStarted = false ∧
    (build_and_run_submission (compileFailCfg "undefined reference to main") []).state.workspaceExists = false ∧
    (build_and_run_submission (compileFailCfg "undefined reference to main") []).state.imageExists = false ∧
    (build_and_run_submission (compileFailCfg "undefined reference to main") []).events =
      [evBuilding, evImageFailed "undefined reference to main"] ∧
    cleanup { workspaceExists := false, imageExists := true, imageDefined := true,
              containerRunning := false, containerDefined := true,
              containerEverStarted := true } =
      { workspaceExists := false, imageExists := true, imageDefined := true,
        containerRunning := false, containerDefined := true,
        containerEverStarted := true } := by
  have h := (claim_C2_cleanup_guarded (compileFailCfg "undefined reference to main") []).2.1
    rfl rfl rfl rfl
  have h2 := (claim_C2_cleanup_guarded (compileFailCfg "undefined reference to main") []).2.2
    { workspaceExists := false, imageExists := true, imageDefined := true,
      containerRunning := false, containerDefined := true, containerEverStarted := true }
    rfl
  exact ⟨h.1, h.2.1, h.2.2.1, h.2.2.2.1, h.2.2.2.2, h2⟩

/-- C4: for every successful pipeline run, exactly one test case result (one
`FINISHED_TEST_CASE` event) is produced per test case — their count equals the
number of test cases and the event at position `i` carries index `i` — in
submission order, and the equality holds for every possible combination of
exec outcomes, so no failed or timed-out test case short-circuits the
remaining ones. -/
theorem claim_C4_one_result_per_test (cfg : RunConfig) (outs : List String)
    (h : (build_and_run_submission cfg outs).err = none) :
    ((build_and_run_submission cfg outs).events.filter
        (fun ev => ev.type == FINISHED_TEST_CASE)).length = outs.length ∧
    (build_and_run_submission cfg outs).events.filter
        (fun ev => ev.type == FINISHED_TEST_CASE) =
      outs.enum.map
        (fun p => evFinishedTest p.1 (statusOf (cfg.execOutcomes p.1) p.2)) := by
  rw [run_ok cfg outs h]
  refine ⟨?_, okEvents_filter_finished cfg.execOutcomes outs⟩
  rw [okEvents_filter_finished cfg.execOutcomes outs]
  simp [List.length_map, List.enum_length]

/-- C4 witness: a run with two test cases, the first passing and the second
timing out, still yields two finished-test results, in order. -/
theorem claim_C4_witness :
    ((build_and_run_submission (okCfg "" (fun i => if i = 0 then some "9" else none))
        ["9", "8"]).events.filter
        (fun ev => ev.type == FINISHED_TEST_CASE)).length = 2 ∧
    (build_and_run_submission (okCfg "" (fun i => if i = 0 then some "9" else none))
        ["9", "8"]).events.filter
        (fun ev => ev.type == FINISHED_TEST_CASE) =
      [evFinishedTest 0 (statusOf (some "9") "9"), evFinishedTest 1 (statusOf none "8")] := by
  have h := claim_C4_one_result_per_test
    (okCfg "" (fun i => if i = 0 then some "9" else none)) ["9", "8"] (by rfl)
  refine ⟨h.1, ?_⟩
  rw [h.2]
  rfl

/-- C5 counterexample: the claim says every published event conforms to the
schema with a `data` field and that every transition of the section 3 state
machine produces exactly one event.  On a compile-failure run, the second
published event — the `DOCKER_IMAGE_FAILED` one from line 141 — has no `data`
field at all; and on a successful run with zero test cases the section 3
machine performs 7 transitions while the pipeline publishes only 6 events
(nothing is published for the Initializing or WritingWorkspace phases). -/
theorem claim_C5_counterexample :
    (build_and_run_submission (compileFailCfg "ld returned 1 exit status") []).events.get? 1 =
      some { type := DOCKER_IMAGE_FAILED, message := "ld returned 1 exit status",
             data := none } ∧
    (specSuccessTransitions 0).length = 7 ∧
    (build_and_run_submission (okCfg "" (fun _ => none)) []).events.length = 6 :=
  ⟨rfl, rfl, rfl⟩

/-- C5 amended: on a successful run the pipeline publishes, in emission
order, one event per code-level transition from BuildingImage onward — the
types are exactly building, built, starting, started, then running/finished
per test case in order, then cleaning-up and finished — and every one of
those events carries a `data` object, the per-test-case completion events
carrying the test case index and status in it; on a compile-failure run the
events are the building event followed by the `DOCKER_IMAGE_FAILED` event,
which carries the diagnostic text as its message but no `data` field.
No event is published for the Initializing or WritingWorkspace phases. -/
theorem claim_C5_events (msg : String) (exec : Nat → Option String) (outs : List String) :
    ((build_and_run_submission (okCfg msg exec) outs).events.map Event.type =
      [BUILDING_DOCKER_IMAGE, DOCKER_IMAGE_BUILT, STARTING_DOCKER_CONTAINER,
       DOCKER_CONTAINER_STARTED]
        ++ outs.flatMap (fun _ => [RUNNING_TEST_CASE, FINISHED_TEST_CASE])
        ++ [CLEANING_UP, FINISHED]) ∧
    (∀ ev ∈ (build_and_run_submission (okCfg msg exec) outs).events,
      ev.data.isSome = true) ∧
    ((build_and_run_submission (okCfg msg exec) outs).events.filter
        (fun ev => ev.type == RUNNING_TEST_CASE) =
      outs.enum.map (fun p => evRunningTest p.1)) ∧
    ((build_and_run_submission (okCfg msg exec) outs).events.filter
        (fun ev => ev.type == FINISHED_TEST_CASE) =
      outs.enum.map (fun p => evFinishedTest p.1 (statusOf (exec p.1) p.2))) ∧
    ((build_and_run_submission (compileFailCfg msg) outs).events =
      [evBuilding, evImageFailed msg]) := by
  rw [run_okCfg]
  refine ⟨?_, okEvents_data_isSome exec outs, okEvents_filter_running exec outs,
    okEvents_filter_finished exec outs, ?_⟩
  · simp only [okEvents, List.map_append, testLoopEvents_map_type]
    rfl
  · simp [build_and_run_submission, tryBlock, compileFailCfg, okCfg]

/-- C5 witness: the amended theorem applied to a one-test-case run. -/
theorem claim_C5_witness :
    evBuilding.data.isSome = true ∧
    (build_and_run_submission (compileFailCfg "diag") []).events =
      [evBuilding, evImageFailed "diag"] := by
  have h := claim_C5_events "diag" (fun _ => some "9") []
  exact ⟨h.2.1 evBuilding (by rw [run_okCfg]; decide), h.2.2.2.2⟩

/-- A request whose only filename is `a1.c`: composed solely of ASCII
letters, digits and periods, so the claim (and the comment at line 267 of the
code) says it must be accepted. -/
def reqWithDigitFilename : RequestBody :=
  { sourceCodes := some ["x"], sourceCodeFilenames := some ["a1.c"],
    testCaseInputs := some ["1"], testCaseOutputs := some ["1"],
    language := none, entryPoint := none }

/-- C7: the claim says the boundary rejects a request iff some filename has a
character outside the alphanumeric-plus-period charset.  The code rejects the
filename `a1.c`, which is inside that charset: the regex `[a-zA-Z0.9\x5c.]`
at line 270 contains the literal characters `0`, `.`, `9` instead of the
intended range `0-9`, so every digit other than `0` and `9` is treated as
invalid, contradicting the comment right above the loop ("contain only
alphanumeric characters and periods").  The spec-modelled charset accepts
`1`; the code does not; `/` is rejected by both, and an all-letters-and-period
filename is accepted by both. -/
theorem claim_C7_filename_regex_bug :
    badFilename "a1.c" = true ∧
    specFilenameCharAllowed '1' = true ∧
    filenameCharOk '1' = false ∧
    filenameCharOk '0' = true ∧
    filenameCharOk '9' = true ∧
    filenameCharOk '/' = false ∧
    badFilename "main.cpp" = false ∧
    post (fun s => s) reqWithDigitFilename = Except.error "Invalid filename: a1.c" :=
  ⟨rfl, rfl, rfl, rfl, rfl, rfl, rfl, rfl⟩

/-- C8 counterexample: the claim says the sandbox instance runs under both
resource limits, the memory ceiling and the CPU share.  The
`containers.run` call passes no CPU-limiting option at all — the declared
`CONTAINER_CPU_LIMIT` (a twentieth of one core, a nonzero share) is never
used — so the container runs with no CPU cap. -/
theorem claim_C8_counterexample :
    (containerRunOptions "7f9b4a2c").cpuLimit = none ∧
    CONTAINER_CPU_LIMIT ≠ 0 := by
  refine ⟨rfl, ?_⟩
  norm_num [CONTAINER_CPU_LIMIT]

/-- C8 amended: the instance is started detached, with a TTY and stdin held
open, auto-removed on exit, named `codematic-` followed by the submission
unique id (so names are unique per submission: equal names force equal ids),
and under the memory ceiling of 50 megabytes — but under no CPU cap: the
declared CPU share constant is never applied. -/
theorem claim_C8_container_options (uid : String) :
    containerRunOptions uid =
      { remove := true, tty := true, stdin_open := true,
        name := "codematic-" ++ uid, detach := true,
        mem_limit := some "50M", cpuLimit := none } ∧
    (∀ v : String, (containerRunOptions uid).name = (containerRunOptions v).name →
      uid = v) := by
  refine ⟨rfl, ?_⟩
  intro v h
  simp only [containerRunOptions] at h
  cases uid
  cases v
  simp only [String.ext_iff, String.data_append] at h
  simpa [String.ext_iff] using h

/-- C8 witness: the amended theorem applied to a concrete submission id. -/
theorem claim_C8_witness :
    containerRunOptions "abc" =
      { remove := true, tty := true, stdin_open := true,
        name := "codematic-" ++ "abc", detach := true,
        mem_limit := some "50M", cpuLimit := none } ∧
    "abc" = "abc" :=
  ⟨(claim_C8_container_options "abc").1, (claim_C8_container_options "abc").2 "abc" rfl⟩

/-- A concrete well-formed request, carrying language and entry point fields
the handler never reads. -/
def reqDemo : RequestBody :=
  { sourceCodes := some ["code"], sourceCodeFilenames := some ["m.cpp"],
    testCaseInputs := some ["3"], testCaseOutputs := some ["9"],
    language := some "python", entryPoint := some "solve" }

/-- The pipeline invocation the handler builds for `reqDemo`. -/
def invDemo : Invocation :=
  { sourceCodes := ["code"], sourceCodeFilenames := ["m.cpp"],
    testCaseInputs := ["3"], testCaseOutputs := ["9"],
    lang := "c++17", entryPoint := "main" }

/-- C10: whatever a well-formed request contains, the endpoint invokes the
pipeline with the fixed language `c++17` and the fixed entry point `main`;
the whole handler result — acceptance, rejection, and every argument passed —
is independent of any `language` or `entryPoint` field in the request body,
and no membership check of the language in `SUPPORTED_LANGS` is performed (the
handler behaves identically whether or not such a field holds a supported
value). -/
theorem claim_C10_fixed_lang_entry :
    (∀ (unescape : String → String) (r : RequestBody) (inv : Invocation),
      post unescape r = Except.ok inv →
        inv.lang = "c++17" ∧ inv.entryPoint = "main") ∧
    (∀ (unescape : String → String) (r : RequestBody) (l e : Option String),
      post unescape { r with language := l, entryPoint := e } = post unescape r) := by
  constructor
  · intro u r inv h
    obtain ⟨sc, fns, tis, tos, lg, ep⟩ := r
    cases sc <;> cases fns <;> cases tis <;> cases tos <;> simp only [post] at h
    all_goals try exact Except.noConfusion h
    split at h
    · exact Except.noConfusion h
    · split at h
      · exact Except.noConfusion h
      · split at h
        · exact Except.noConfusion h
        · cases h
          exact ⟨rfl, rfl⟩
  · intro u r l e
    obtain ⟨sc, fns, tis, tos, lg, ep⟩ := r
    rfl

/-- C10 witness: a concrete request carrying `language` and `entryPoint`
fields is invoked with `c++17` and `main` regardless, and changing those
fields does not change the handler result. -/
theorem claim_C10_witness :
    (invDemo.lang = "c++17" ∧ invDemo.entryPoint = "main") ∧
    post (fun s => s) { reqDemo with language := some "java", entryPoint := some "other" } =
      post (fun s => s) reqDemo := by
  constructor
  · exact claim_C10_fixed_lang_entry.1 (fun s => s) reqDemo invDemo (by rfl)
  · exact claim_C10_fixed_lang_entry.2 (fun s => s) reqDemo (some "java") (some "other")

end Codematic
